import Mathlib

set_option maxRecDepth 8000

/-!
Shallow embedding of the core of the uavcan.rs library: the CAN-FD transport
(src/uavcan/src/transport/can/fd.rs), the heap-based session manager
(src/uavcan/src/session/heap_based.rs) and the legacy tail-byte codec
(src/uavcan/src/transfer.rs).  Machine integers are modelled as Nat with
explicit masks; fallible Rust code returns Except, and a Rust panic (unwrap
on None, slice out of bounds, ArrayVec capacity overflow, explicit panic!)
is modelled as the value none of an outer Option.

Parts of the crate referenced by these files but not present under src/
(bitfields.rs, internal.rs, session/mod.rs, the SessionMetadata
implementation and the rewritten transfer.rs Transfer struct) are modelled
from the spec; each such definition carries a doc comment starting with
"Modelled from the spec:".
-/

/-- Transfer kinds of the library: subject message, service request, service response. -/
inductive TransferKind where
  | message
  | request
  | response
deriving DecidableEq, Repr

/-- Transmit-path errors (TxError in the crate). -/
inductive TxError where
  | AnonNotSingleFrame
  | ServiceNoSourceID
  | ServiceNoDestinationID
deriving DecidableEq, Repr

/-- Receive-path errors: the RxError taxonomy of the spec, covering both the
parser errors of fd.rs and the session errors of the session manager. -/
inductive RxError where
  | FrameEmpty
  | InvalidCanId
  | TransferStartMissingToggle
  | NonLastUnderUtilization
  | AnonNotSingleFrame
  | NewSessionNoStart
  | Timeout
  | BadMetadata
deriving DecidableEq, Repr

deriving instance DecidableEq for Except

/-- One left-shift step of CRC-16/CCITT-FALSE (polynomial 0x1021), on a 16-bit state. -/
def crcShift (c : Nat) : Nat :=
  if c &&& 32768 ≠ 0 then ((c * 2) ^^^ 4129) % 65536 else (c * 2) % 65536

/-- Digest one byte into a CRC-16/CCITT-FALSE state (crc_any::CRCu16::digest, one byte). -/
def crcByte (c b : Nat) : Nat :=
  crcShift (crcShift (crcShift (crcShift (crcShift (crcShift (crcShift (crcShift
    ((c ^^^ b % 256 * 256) % 65536))))))))

/-- Digest a list of bytes into a CRC-16/CCITT-FALSE state. -/
def crcDigest (c : Nat) (bs : List Nat) : Nat := bs.foldl crcByte c

/-- Modelled from the spec: the tail byte of bitfields.rs (not under src/):
bit 7 start_of_transfer, bit 6 end_of_transfer, bit 5 toggle, bits 4..0 transfer_id
(the bitfield setter masks the transfer id to its 5-bit width). -/
def TailByte.new (s e t : Bool) (tid : Nat) : Nat :=
  (cond s 128 0) + (cond e 64 0) + (cond t 32 0) + tid % 32

/-- Modelled from the spec: start_of_transfer flag of a tail byte (bit 7). -/
def tailStart (b : Nat) : Bool := b / 128 % 2 = 1

/-- Modelled from the spec: end_of_transfer flag of a tail byte (bit 6). -/
def tailEnd (b : Nat) : Bool := b / 64 % 2 = 1

/-- Modelled from the spec: toggle flag of a tail byte (bit 5). -/
def tailToggle (b : Nat) : Bool := b / 32 % 2 = 1

/-- Modelled from the spec: 5-bit transfer id of a tail byte (bits 4..0). -/
def tailTransferId (b : Nat) : Nat := b % 32

/-- Modelled from the spec: CanMessageId::new of bitfields.rs (not under src/),
following the layout of spec section 4.1 and the concrete id of scenario 1:
priority at bits 28..26, service flag 0 at bit 25, constant 1 at bit 24,
anonymous flag at bit 23, subject id at bits 20..8, constant 1 at bit 7,
source node id at bits 6..0 (an anonymous id carries source 0). -/
def CanMessageId.new (priority : Nat) (subject : Nat) (source : Option Nat) : Nat :=
  priority % 8 * 67108864 + 16777216 + (cond source.isNone 1 0) * 8388608 +
    subject % 8192 * 256 + 128 + source.getD 0 % 128

/-- Modelled from the spec: priority field of a CAN id (bits 28..26). -/
def canIdPriority (id : Nat) : Nat := id / 67108864 % 8

/-- Modelled from the spec: source node id field of a CAN id (bits 6..0). -/
def canIdSource (id : Nat) : Nat := id % 128

/-- Modelled from the spec: service (not message) flag of a CAN id (bit 25). -/
def canIdIsSvc (id : Nat) : Bool := id / 33554432 % 2 = 1

/-- Modelled from the spec: anonymous flag of a message CAN id (bit 23). -/
def canMsgIsAnon (id : Nat) : Bool := id / 8388608 % 2 = 1

/-- Modelled from the spec: subject id field of a message CAN id (bits 20..8). -/
def canMsgSubject (id : Nat) : Nat := id / 256 % 8192

/-- Modelled from the spec: validity of a message CAN id, enforcing the reserved
bit patterns: bit 24 set, bits 22..21 clear, bit 7 set. -/
def canMsgValid (id : Nat) : Bool :=
  id / 16777216 % 2 = 1 ∧ id / 2097152 % 4 = 0 ∧ id / 128 % 2 = 1

/-- Modelled from the spec: CanServiceId::new of bitfields.rs (not under src/):
priority at bits 28..26, service flag 1 at bit 25, constant 1 at bit 24,
request flag at bit 23, service id at bits 22..14, destination at bits 13..7,
source at bits 6..0. -/
def CanServiceId.new (priority : Nat) (isReq : Bool) (svc : Nat) (dest src : Nat) : Nat :=
  priority % 8 * 67108864 + 33554432 + 16777216 + (cond isReq 1 0) * 8388608 +
    svc % 512 * 16384 + dest % 128 * 128 + src % 128

/-- Modelled from the spec: destination node id of a service CAN id (bits 13..7). -/
def canSvcDest (id : Nat) : Nat := id / 128 % 128

/-- Modelled from the spec: service id field of a service CAN id (bits 22..14). -/
def canSvcServiceId (id : Nat) : Nat := id / 16384 % 512

/-- Modelled from the spec: request (not response) flag of a service CAN id (bit 23). -/
def canSvcIsReq (id : Nat) : Bool := id / 8388608 % 2 = 1

/-- Modelled from the spec: validity of a service CAN id; in the spec layout a
service id has no reserved bits left over, so every service id is well formed. -/
def canSvcValid (_ : Nat) : Bool := true

/-- Modelled from the spec: the application-level Transfer of the rewritten crate
(its transfer.rs is not under src/; fields follow spec section 3 and the uses
in fd.rs).  Timestamps are Nat ticks, priority is the 3-bit numeric value. -/
structure Transfer where
  timestamp : Nat
  priority : Nat
  transferKind : TransferKind
  portId : Nat
  remoteNodeId : Option Nat
  transferId : Nat
  payload : List Nat
deriving DecidableEq, Repr

/-- Wire frame of the CAN-FD transport (FdCanFrame of fd.rs): CAN id, DLC code
and up to 64 payload bytes. -/
structure FdCanFrame where
  timestamp : Nat
  id : Nat
  dlc : Nat
  payload : List Nat
deriving DecidableEq, Repr

/-- Modelled from the spec: InternalRxFrame of internal.rs (not under src/),
the parser output handed to the session manager.  Its payload is the whole
frame payload as received (fd.rs passes the full slice, tail byte included). -/
structure InternalRxFrame where
  timestamp : Nat
  priority : Nat
  transferKind : TransferKind
  portId : Nat
  sourceNodeId : Option Nat
  destinationNodeId : Option Nat
  transferId : Nat
  startOfTransfer : Bool
  endOfTransfer : Bool
  payload : List Nat
deriving DecidableEq, Repr

/-- Zero-padding helper for the DLC quantization arm of FdCanIter::next: extend
the frame payload by k zero bytes and return the DLC code; none models the
panic when ArrayVec's 64-byte capacity would be exceeded. -/
def padTo (fp : List Nat) (k : Nat) (code : Nat) : Option (List Nat × Nat) :=
  if fp.length + k ≤ 64 then some (fp ++ List.replicate k 0, code) else none

/-- DLC quantization of FdCanIter::next: the match on copy_len setting the dlc
code and zero-padding the frame.  Mirrors the source exactly: the pad amount
is computed from copy_len, not from the actual frame length.  The outer none
models a panic (the explicit panic! arm, or ArrayVec capacity overflow). -/
def setDlcAndPad (fp : List Nat) (copyLen : Nat) : Option (List Nat × Nat) :=
  if copyLen ≤ 8 then some (fp, copyLen)
  else if copyLen ≤ 12 then padTo fp (12 - copyLen) 9
  else if copyLen ≤ 16 then padTo fp (16 - copyLen) 10
  else if copyLen ≤ 20 then padTo fp (20 - copyLen) 11
  else if copyLen ≤ 24 then padTo fp (24 - copyLen) 12
  else if copyLen ≤ 32 then padTo fp (32 - copyLen) 13
  else if copyLen ≤ 48 then padTo fp (48 - copyLen) 14
  else if copyLen ≤ 64 then padTo fp (64 - copyLen) 15
  else none

/-- State of the CAN-FD transmit iterator (FdCanIter of fd.rs). -/
structure FdCanIter where
  timestamp : Nat
  payload : List Nat
  transferId : Nat
  frameId : Nat
  payloadOffset : Nat
  crc : Nat
  crcLeft : Nat
  toggle : Bool
  isStart : Bool
deriving DecidableEq, Repr

/-- Initial iterator state built at the end of FdCanIter::new. -/
def FdCanIter.mkInit (t : Transfer) (frameId : Nat) : FdCanIter :=
  { timestamp := t.timestamp, payload := t.payload, transferId := t.transferId,
    frameId := frameId, payloadOffset := 0, crc := 65535, crcLeft := 2,
    toggle := true, isStart := true }

/-- FdCanIter::new of fd.rs: compute the frame id from the transfer kind, with
the anonymous single-frame check for messages and the source/destination
checks for services. -/
def FdCanIter.new (t : Transfer) (nodeId : Option Nat) : Except TxError FdCanIter :=
  match t.transferKind with
  | .message =>
    if nodeId = none ∧ t.payload.length > 63 then .error .AnonNotSingleFrame
    else .ok (FdCanIter.mkInit t (CanMessageId.new t.priority t.portId nodeId))
  | .request =>
    match nodeId with
    | none => .error .ServiceNoSourceID
    | some src =>
      match t.remoteNodeId with
      | none => .error .ServiceNoDestinationID
      | some dst => .ok (FdCanIter.mkInit t (CanServiceId.new t.priority true t.portId dst src))
  | .response =>
    match nodeId with
    | none => .error .ServiceNoSourceID
    | some src =>
      match t.remoteNodeId with
      | none => .error .ServiceNoDestinationID
      | some dst => .ok (FdCanIter.mkInit t (CanServiceId.new t.priority false t.portId dst src))

/-- FdCanIter::next of fd.rs, translated clause by clause, including the
classic-CAN leftovers (the bytes_left < 7 CRC threshold) it actually
contains.  Result: none is a panic, some none is iterator exhaustion,
some (some (frame, it)) is an emitted frame plus the successor state. -/
def FdCanIter.next (it : FdCanIter) : Option (Option (FdCanFrame × FdCanIter)) :=
  let bytesLeft := it.payload.length - it.payloadOffset
  let isEnd := bytesLeft ≤ 63
  let copyLen := min bytesLeft 63
  if it.isStart ∧ isEnd then
    let fp := it.payload.take copyLen ++ [TailByte.new true true true it.transferId]
    let it' := { it with payloadOffset := it.payloadOffset + bytesLeft, isStart := false }
    (setDlcAndPad fp copyLen).map (fun p =>
      some ({ timestamp := it.timestamp, id := it.frameId, dlc := p.2, payload := p.1 }, it'))
  else
    if bytesLeft = 0 ∧ it.crcLeft = 0 then some none
    else
      let outData := (it.payload.drop it.payloadOffset).take copyLen
      let crc1 := crcDigest it.crc outData
      let step : List Nat × Nat × Nat :=
        if bytesLeft < 7 then
          if it.crcLeft = 2 then
            if 2 ≤ 7 - bytesLeft then (outData ++ [crc1 / 256, crc1 % 256], 0, copyLen + 2)
            else (outData ++ [crc1 / 256], 1, copyLen + 1)
          else if it.crcLeft = 1 then (outData ++ [crc1 % 256], 0, copyLen + 1)
          else (outData, it.crcLeft, copyLen)
        else (outData, it.crcLeft, copyLen)
      let fp := step.1 ++ [TailByte.new it.isStart isEnd it.toggle it.transferId]
      let it' :=
        { it with
          payloadOffset := it.payloadOffset + copyLen,
          crc := crc1,
          crcLeft := step.2.1,
          toggle := !it.toggle,
          isStart := false }
      (setDlcAndPad fp (step.2.2 + 1)).map (fun p =>
        some ({ timestamp := it.timestamp, id := it.frameId, dlc := p.2, payload := p.1 }, it'))

/-- FdCanIter::size_hint of fd.rs (exact lower and upper bounds as returned by
the source, including its classic-CAN divisor 7). -/
def FdCanIter.sizeHint (it : FdCanIter) : Nat × Option Nat :=
  let bytesLeft := it.payload.length - it.payloadOffset
  if it.isStart ∧ bytesLeft ≤ 7 then (1, some 1)
  else
    let b := bytesLeft + 2
    let frames := b / 7 + (if b % 7 > 0 then 1 else 0)
    (frames, some frames)

/-- Run the iterator to exhaustion, collecting the emitted frames; fuel-bounded
recursion (none on fuel exhaustion or on a panic inside next). -/
def FdCanIter.emitAux : Nat → FdCanIter → Option (List FdCanFrame)
  | 0, _ => none
  | fuel + 1, it =>
    match it.next with
    | none => none
    | some none => some []
    | some (some p) => (FdCanIter.emitAux fuel p.2).map (fun fs => p.1 :: fs)

/-- All frames produced by an FdCanIter, in order. -/
def FdCanIter.emit (it : FdCanIter) : Option (List FdCanFrame) :=
  FdCanIter.emitAux (it.payload.length + 4) it

/-- MTU of the CAN-FD transport. -/
def MTU_SIZE : Nat := 64

/-- Transport::transmit of the FdCan impl in fd.rs: builds the iterator with the
hardcoded node id Some(1). -/
def FdCan.transmit (t : Transfer) : Except TxError FdCanIter :=
  FdCanIter.new t (some 1)

/-- All frames transmitted for a transfer through FdCan's Transport::transmit. -/
def fdFrames (t : Transfer) : Option (List FdCanFrame) :=
  match FdCan.transmit t with
  | .error _ => none
  | .ok it => FdCanIter.emit it

/-- FdCan::rx_process_frame of fd.rs, translated clause by clause: empty-frame
check, tail-byte protocol checks, then the service/message split on bit 25
of the id, preserving the source order of every check. -/
def rxProcessFrame (nodeId : Option Nat) (frame : FdCanFrame) :
    Except RxError (Option InternalRxFrame) :=
  if frame.payload.length = 0 then .error .FrameEmpty
  else
    let tail := frame.payload.getLast!
    if tailStart tail ∧ ¬ tailToggle tail then .error .TransferStartMissingToggle
    else if ¬ tailEnd tail ∧ frame.payload.length < MTU_SIZE then .error .NonLastUnderUtilization
    else if canIdIsSvc frame.id then
      if ¬ canSvcValid frame.id then .error .InvalidCanId
      else
        match nodeId with
        | none => .ok none
        | some nid =>
          if canSvcDest frame.id ≠ nid then .ok none
          else
            .ok (some { timestamp := frame.timestamp, priority := canIdPriority frame.id,
                        transferKind := cond (canSvcIsReq frame.id) .request .response,
                        portId := canSvcServiceId frame.id,
                        sourceNodeId := some (canIdSource frame.id),
                        destinationNodeId := some (canSvcDest frame.id),
                        transferId := tailTransferId tail,
                        startOfTransfer := tailStart tail, endOfTransfer := tailEnd tail,
                        payload := frame.payload })
    else
      if canMsgIsAnon frame.id ∧ ¬ (tailStart tail ∧ tailEnd tail) then
        .error .AnonNotSingleFrame
      else if ¬ canMsgValid frame.id then .error .InvalidCanId
      else
        .ok (some { timestamp := frame.timestamp, priority := canIdPriority frame.id,
                    transferKind := .message, portId := canMsgSubject frame.id,
                    sourceNodeId := cond (canMsgIsAnon frame.id) none (some (canIdSource frame.id)),
                    destinationNodeId := none,
                    transferId := tailTransferId tail,
                    startOfTransfer := tailStart tail, endOfTransfer := tailEnd tail,
                    payload := frame.payload })

/-- Modelled from the spec: the per-session transport metadata (SessionMetadata
implementation for the CAN transports, transport/can/mod.rs not under src/).
State: expected toggle (starting true) and a running CRC-16/CCITT-FALSE. -/
structure CanMetadata where
  toggle : Bool
  crc : Nat
deriving DecidableEq, Repr

/-- Modelled from the spec: SessionMetadata::new — toggle set, CRC reset. -/
def CanMetadata.new : CanMetadata := { toggle := true, crc := 65535 }

/-- Modelled from the spec: SessionMetadata::update — reject the frame on a
toggle mismatch, otherwise digest the frame body into the running CRC and
return how many of the frame's payload bytes (tail byte excluded, and on the
final frame of a multi-frame transfer the two trailing CRC bytes excluded)
belong to the logical payload. -/
def CanMetadata.update (md : CanMetadata) (f : InternalRxFrame) : Option (CanMetadata × Nat) :=
  let tail := f.payload.getLast!
  if tailToggle tail = md.toggle then
    let body := f.payload.dropLast
    let count :=
      if f.startOfTransfer ∧ f.endOfTransfer then body.length
      else if f.endOfTransfer then body.length - 2
      else body.length
    some ({ toggle := !md.toggle, crc := crcDigest md.crc body }, count)
  else none

/-- Modelled from the spec: SessionMetadata::is_valid — a single-frame transfer
is trivially valid; a multi-frame transfer is valid iff the running CRC over
body bytes and appended big-endian transfer CRC leaves the zero residue. -/
def CanMetadata.isValid (md : CanMetadata) (f : InternalRxFrame) : Bool :=
  if f.startOfTransfer ∧ f.endOfTransfer then true else md.crc = 0

/-- Internal session object of heap_based.rs. -/
structure Session where
  timestamp : Option Nat
  payload : List Nat
  transferId : Nat
  md : CanMetadata
deriving DecidableEq, Repr

/-- Session::new of heap_based.rs (the known_max_payload_size argument only
pre-sizes the Vec, so it has no observable effect). -/
def Session.new (tid : Nat) : Session :=
  { timestamp := none, payload := [], transferId := tid, md := CanMetadata.new }

/-- Session::reset of heap_based.rs: clear payload, timestamp and metadata,
keeping the transfer id. -/
def Session.reset (s : Session) : Session :=
  { s with timestamp := none, payload := [], md := CanMetadata.new }

/-- Session::reset_to_new_transfer_id of heap_based.rs. -/
def Session.resetToNewTransferId (s : Session) (tid : Nat) : Session :=
  { Session.reset s with transferId := tid }

/-- Subscription parameters (crate::Subscription): kind, port id, extent,
timeout.  Two subscriptions are equal iff kind and port id match. -/
structure SubscriptionParams where
  transferKind : TransferKind
  portId : Nat
  extent : Nat
  timeout : Nat
deriving DecidableEq, Repr

/-- Internal subscription object of heap_based.rs: the parameters plus the
per-source session map (the BTreeMap is embedded as an association list). -/
structure SubscriptionState where
  sub : SubscriptionParams
  sessions : List (Nat × Session)
deriving DecidableEq, Repr

/-- Modelled from the spec: matches_sub of session/mod.rs (not under src/) —
a frame matches a subscription iff kind and port id agree. -/
def matchesSub (sub : SubscriptionParams) (f : InternalRxFrame) : Bool :=
  sub.transferKind = f.transferKind ∧ sub.portId = f.portId

/-- Modelled from the spec: timestamp_expired of session/mod.rs (not under
src/) — a session is expired iff it has a recorded timestamp strictly older
than the subscription timeout relative to now. -/
def timestampExpired (timeout now : Nat) (ts : Option Nat) : Bool :=
  match ts with
  | some t => t + timeout < now
  | none => false

/-- Modelled from the spec: Transfer::from_frame of the rewritten transfer.rs
(not under src/): a completed transfer takes the session's first-frame
timestamp, the frame's metadata, and the session's assembled payload. -/
def Transfer.fromFrame (f : InternalRxFrame) (ts : Nat) (payload : List Nat) : Transfer :=
  { timestamp := ts, priority := f.priority, transferKind := f.transferKind,
    portId := f.portId, remoteNodeId := f.sourceNodeId, transferId := f.transferId,
    payload := payload }

/-- Lookup in the session association list (BTreeMap::get_mut by key). -/
def lookupSession : List (Nat × Session) → Nat → Option Session
  | [], _ => none
  | p :: rest, k => if p.1 = k then some p.2 else lookupSession rest k

/-- Write-back into the session association list (mutation through get_mut, or
BTreeMap::insert for a fresh key). -/
def setSession : List (Nat × Session) → Nat → Session → List (Nat × Session)
  | [], k, v => [(k, v)]
  | p :: rest, k, v => if p.1 = k then (k, v) :: rest else p :: setSession rest k v

/-- Subscription::accept_frame of heap_based.rs, translated clause by clause,
including the inverted truncation formula it actually contains.  The outer
none models a panic (get_mut().unwrap() on a missing session, the slice
frame.payload[0..payload_to_copy] out of bounds, or timestamp.unwrap()). -/
def SubscriptionState.acceptFrame (s : SubscriptionState) (sid : Nat) (f : InternalRxFrame) :
    Option (SubscriptionState × Except RxError (Option Transfer)) :=
  match lookupSession s.sessions sid with
  | none => none
  | some sess0 =>
    let sess := if f.startOfTransfer then { sess0 with timestamp := some f.timestamp } else sess0
    match CanMetadata.update sess.md f with
    | none => some ({ s with sessions := setSession s.sessions sid sess }, .error .BadMetadata)
    | some md1 =>
      let len := md1.2
      let payloadToCopy :=
        if s.sub.extent < sess.payload.length + len then sess.payload.length + len - s.sub.extent
        else len
      if f.payload.length < payloadToCopy then none
      else
        let sess1 := { sess with md := md1.1, payload := sess.payload ++ f.payload.take payloadToCopy }
        let s1 := { s with sessions := setSession s.sessions sid sess1 }
        if f.endOfTransfer then
          if CanMetadata.isValid md1.1 f then
            match sess1.timestamp with
            | none => none
            | some ts => some (s1, .ok (some (Transfer.fromFrame f ts sess1.payload)))
          else some (s1, .error .BadMetadata)
        else some (s1, .ok none)

/-- Subscription::update of heap_based.rs: session lookup keyed by the frame's
source node id (the unwrap on an anonymous source is modelled as none, a
panic), new-session / transfer-id-mismatch / timeout dispatch in source
order, then accept_frame. -/
def SubscriptionState.update (s : SubscriptionState) (f : InternalRxFrame) :
    Option (SubscriptionState × Except RxError (Option Transfer)) :=
  match f.sourceNodeId with
  | none => none
  | some sid =>
    match lookupSession s.sessions sid with
    | none =>
      if ¬ f.startOfTransfer then some (s, .error .NewSessionNoStart)
      else
        SubscriptionState.acceptFrame
          { s with sessions := setSession s.sessions sid (Session.new f.transferId) } sid f
    | some sess =>
      if sess.transferId ≠ f.transferId then
        SubscriptionState.acceptFrame
          { s with sessions := setSession s.sessions sid (Session.resetToNewTransferId sess f.transferId) } sid f
      else if timestampExpired s.sub.timeout f.timestamp sess.timestamp then
        some ({ s with sessions := setSession s.sessions sid (Session.reset sess) }, .error .Timeout)
      else
        SubscriptionState.acceptFrame s sid f

/-- Heap session manager of heap_based.rs: a vector of subscriptions. -/
structure HeapSessionManager where
  subscriptions : List SubscriptionState
deriving DecidableEq, Repr

/-- Dispatch of HeapSessionManager::ingest over the subscription list: the
first subscription matching the frame handles it; no match is Ok(None). -/
def ingestSubs : List SubscriptionState → InternalRxFrame →
    Option (List SubscriptionState × Except RxError (Option Transfer))
  | [], _ => some ([], .ok none)
  | s :: rest, f =>
    if matchesSub s.sub f then
      (SubscriptionState.update s f).map (fun p => (p.1 :: rest, p.2))
    else
      (ingestSubs rest f).map (fun p => (s :: p.1, p.2))

/-- HeapSessionManager::ingest of heap_based.rs (none models a panic). -/
def HeapSessionManager.ingest (m : HeapSessionManager) (f : InternalRxFrame) :
    Option (HeapSessionManager × Except RxError (Option Transfer)) :=
  (ingestSubs m.subscriptions f).map (fun p => ({ subscriptions := p.1 }, p.2))

/-- Body of the sweep in HeapSessionManager::update_sessions: an expired
session is replaced in place by Session::new with its old transfer id. -/
def Session.sweep (timeout now : Nat) (sess : Session) : Session :=
  if timestampExpired timeout now sess.timestamp then Session.new sess.transferId else sess

/-- HeapSessionManager::update_sessions of heap_based.rs. -/
def HeapSessionManager.updateSessions (m : HeapSessionManager) (now : Nat) : HeapSessionManager :=
  { subscriptions := m.subscriptions.map (fun s =>
      { s with sessions := s.sessions.map (fun p => (p.1, Session.sweep s.sub.timeout now p.2)) }) }

/-- One step of the node receive pipeline: parse a wire frame, then hand any
internal frame to the session manager (none models a panic in ingest). -/
def stepPipeline (nodeId : Option Nat) (m : HeapSessionManager) (frame : FdCanFrame) :
    Option (HeapSessionManager × Except RxError (Option Transfer)) :=
  match rxProcessFrame nodeId frame with
  | .error e => some (m, .error e)
  | .ok none => some (m, .ok none)
  | .ok (some f) => HeapSessionManager.ingest m f

/-- Feed a list of wire frames through the receive pipeline in order,
collecting the per-frame results. -/
def runPipeline (nodeId : Option Nat) :
    HeapSessionManager → List FdCanFrame → Option (List (Except RxError (Option Transfer)))
  | _, [] => some []
  | m, fr :: rest =>
    match stepPipeline nodeId m fr with
    | none => none
    | some p => (runPipeline nodeId p.1 rest).map (fun rs => p.2 :: rs)

/-- Round trip for one transfer: transmit through FdCan, feed every emitted
frame to a heap session manager holding exactly the given subscription, and
collect the per-frame results (none models a panic anywhere on the way). -/
def fdRoundTrip (t : Transfer) (sub : SubscriptionParams) (nodeId : Option Nat) :
    Option (List (Except RxError (Option Transfer))) :=
  match fdFrames t with
  | none => none
  | some frames => runPipeline nodeId { subscriptions := [{ sub := sub, sessions := [] }] } frames

/-- Number of completed transfers (Ok(Some(..)) results) in a result list. -/
def countCompleted (rs : List (Except RxError (Option Transfer))) : Nat :=
  (rs.filter (fun r => match r with | .ok (some _) => true | _ => false)).length

/-- Legacy TransferID newtype of transfer.rs (under src/). -/
structure LegacyTransferID where
  value : Nat
deriving DecidableEq, Repr

/-- Legacy TailByte newtype of transfer.rs (under src/). -/
structure LegacyTailByte where
  value : Nat
deriving DecidableEq, Repr

/-- TailByte::new of transfer.rs: flags shifted into bits 7..5 or-ed with the
raw transfer id value. -/
def LegacyTailByte.new (s e t : Bool) (tid : LegacyTransferID) : LegacyTailByte :=
  ⟨(cond s 1 0) * 128 ||| (cond e 1 0) * 64 ||| (cond t 1 0) * 32 ||| tid.value⟩

/-- TailByte::transfer_id of transfer.rs: wraps the whole tail byte value in
TransferID without masking off the flag bits. -/
def LegacyTailByte.transferId (tb : LegacyTailByte) : LegacyTransferID :=
  ⟨tb.value⟩

/-- From u8 for TransferID in transfer.rs: asserts that the bits above bit 4
are zero; none models the assertion failure (a panic). -/
def LegacyTransferID.fromU8 (v : Nat) : Option LegacyTransferID :=
  if v &&& 224 = 0 then some ⟨v⟩ else none

/-- Round-trip example transfer for C1: a 9-byte message, comfortably below the
subscription extent. -/
def c1Transfer : Transfer :=
  { timestamp := 0, priority := 4, transferKind := .message, portId := 7,
    remoteNodeId := none, transferId := 0, payload := [1, 2, 3, 4, 5, 6, 7, 8, 9] }

/-- Matching subscription for C1, with extent 16 ≥ 9. -/
def c1Sub : SubscriptionParams :=
  { transferKind := .message, portId := 7, extent := 16, timeout := 1000 }

/-- C1: the transmit/ingest round trip fails on the code.  For the well-formed
9-byte message transfer c1Transfer delivered to the matching subscription
c1Sub (extent 16 ≥ 9), feeding every frame produced by the FdCan transmit
iterator to the heap session manager in order yields no completed transfer
at all: the first frame is zero-padded past its tail byte, so the parser
reads a padding zero as the tail byte and rejects the frame with
NonLastUnderUtilization, and the spurious trailing CRC frame then yields
NewSessionNoStart.  The claim requires exactly one Ok(Some(..)). -/
theorem c1_roundTrip_yields_no_transfer :
    c1Sub.extent ≥ c1Transfer.payload.length ∧
    fdRoundTrip c1Transfer c1Sub (some 42) =
      some [.error .NonLastUnderUtilization, .error .NewSessionNoStart] ∧
    (fdRoundTrip c1Transfer c1Sub (some 42)).map countCompleted = some 0 := by
  decide

/-- Subscription with extent 4 for C2. -/
def c2Sub : SubscriptionParams :=
  { transferKind := .message, portId := 7, extent := 4, timeout := 1000 }

/-- Fresh session manager holding only c2Sub. -/
def c2Mgr : HeapSessionManager := { subscriptions := [{ sub := c2Sub, sessions := [] }] }

/-- Single-frame internal frame for C2: ten logical payload bytes 1..10 plus the
tail byte 0xE0 (start, end, toggle set, transfer id 0), from source node 5. -/
def c2Frame : InternalRxFrame :=
  { timestamp := 100, priority := 4, transferKind := .message, portId := 7,
    sourceNodeId := some 5, destinationNodeId := none, transferId := 0,
    startOfTransfer := true, endOfTransfer := true,
    payload := [1, 2, 3, 4, 5, 6, 7, 8, 9, 10, 224] }

/-- C2: the truncation invariant fails on the code.  With extent 4 and a
10-byte single-frame transfer, accept_frame computes payload_to_copy with
the inverted formula payload.len() + len − extent = 6 and stores a 6-byte
payload, exceeding the extent and differing from the first 4 bytes the
claim requires. -/
theorem c2_truncation_exceeds_extent :
    c2Sub.extent = 4 ∧
    (HeapSessionManager.ingest c2Mgr c2Frame).map (fun p => p.2) =
      some (.ok (some
        { timestamp := 100, priority := 4, transferKind := .message, portId := 7,
          remoteNodeId := some 5, transferId := 0, payload := [1, 2, 3, 4, 5, 6] })) ∧
    ¬ (6 ≤ c2Sub.extent) := by
  decide

/-- Subscription for C3 (message, port 7). -/
def c3Sub : SubscriptionParams :=
  { transferKind := .message, portId := 7, extent := 16, timeout := 1000 }

/-- Fresh session manager holding only c3Sub. -/
def c3Mgr : HeapSessionManager := { subscriptions := [{ sub := c3Sub, sessions := [] }] }

/-- Anonymous single-frame message frame for C3: source node id absent,
start and end of transfer set, matching c3Sub. -/
def c3Frame : InternalRxFrame :=
  { timestamp := 100, priority := 4, transferKind := .message, portId := 7,
    sourceNodeId := none, destinationNodeId := none, transferId := 0,
    startOfTransfer := true, endOfTransfer := true, payload := [1, 2, 224] }

/-- C3: ingest panics on an anonymous message frame that matches a
subscription: Subscription::update unwraps frame.source_node_id, which is
None, so the call panics (modelled as none) instead of returning the
completed transfer directly. -/
theorem c3_ingest_panics_on_anonymous :
    c3Frame.sourceNodeId = none ∧
    matchesSub c3Sub c3Frame = true ∧
    HeapSessionManager.ingest c3Mgr c3Frame = none := by
  decide

/-- Two-byte message transfer for C4 (payload well below MTU − 1 = 63). -/
def c4Transfer : Transfer :=
  { timestamp := 0, priority := 4, transferKind := .message, portId := 100,
    remoteNodeId := none, transferId := 3, payload := [72, 105] }

/-- C4: a single-frame transfer does not produce exactly one frame.  The first
frame carries the correct tail byte 227 (start, end, toggle set, transfer
id 3), but because crc_left is initialized to 2 and never cleared on the
single-frame path, the following next() call emits a spurious second frame
[255, 255, 99] carrying the untouched CRC and a second end-of-transfer tail
byte instead of returning None. -/
theorem c4_single_frame_emits_spurious_second_frame :
    c4Transfer.payload.length ≤ 63 ∧
    fdFrames c4Transfer = some
      [{ timestamp := 0, id := 285238401, dlc := 2, payload := [72, 105, 227] },
       { timestamp := 0, id := 285238401, dlc := 3, payload := [255, 255, 99] }] ∧
    (fdFrames c4Transfer).map List.length ≠ some 1 ∧
    tailStart 227 = true ∧ tailEnd 227 = true ∧ tailToggle 227 = true ∧
    tailTransferId 227 = c4Transfer.transferId := by
  decide

/-- A 70-byte multi-frame transfer for C5. -/
def c5Transfer : Transfer :=
  { timestamp := 0, priority := 4, transferKind := .message, portId := 7,
    remoteNodeId := none, transferId := 0, payload := List.replicate 70 1 }

/-- C5: both the frame count and size_hint are wrong on the code.  For a
70-byte transfer the formula ⌈(70+2)/63⌉ gives 2 frames, but the iterator
emits 3 (the classic-CAN threshold bytes_left < 7 leaves the CRC for an
extra frame), and size_hint computes with the classic-CAN divisor 7,
reporting (11, Some 11) instead of the number of frames remaining. -/
theorem c5_frame_count_and_size_hint_wrong :
    c5Transfer.payload.length = 70 ∧
    (c5Transfer.payload.length + 2 + 62) / 63 = 2 ∧
    (fdFrames c5Transfer).map List.length = some 3 ∧
    (FdCan.transmit c5Transfer).toOption.map FdCanIter.sizeHint = some (11, some 11) := by
  decide

/-- C7: TailByte::transfer_id of transfer.rs returns the whole tail byte
unmasked.  For the tail byte built from start=end=toggle=1 and transfer id
3 (value 227), the extracted TransferID holds 227, whose bits above bit 4
are not zero — the very pattern the crate's own From u8 conversion asserts
against (it panics on 227 and accepts 3). -/
theorem c7_tail_transfer_id_keeps_flag_bits :
    (LegacyTailByte.new true true true ⟨3⟩).transferId = ⟨227⟩ ∧
    227 &&& 224 ≠ 0 ∧
    LegacyTransferID.fromU8 227 = none ∧
    LegacyTransferID.fromU8 3 = some ⟨3⟩ := by
  decide

/-- Empty-payload message transfer for C8. -/
def c8Transfer : Transfer :=
  { timestamp := 0, priority := 4, transferKind := .message, portId := 7,
    remoteNodeId := none, transferId := 3, payload := [] }

/-- C8: the DLC does not match the written frame on the single-frame path.
The emitted first frame holds one byte (the tail byte), yet its dlc field
is 0, because copy_len on the single-frame path never counts the tail
byte; the code for a 1-byte frame would be 1.  (The spurious second frame
of the same iteration happens to be self-consistent.) -/
theorem c8_dlc_excludes_tail_byte :
    fdFrames c8Transfer = some
      [{ timestamp := 0, id := 285214593, dlc := 0, payload := [227] },
       { timestamp := 0, id := 285214593, dlc := 3, payload := [255, 255, 99] }] ∧
    (fdFrames c8Transfer).map (List.map (fun fr => (fr.payload.length, fr.dlc))) =
      some [(1, 0), (3, 3)] := by
  decide

/-- Frame for the C10 counterexample: anonymous message id with invalid
reserved bits (only bit 23 set), two payload bytes with tail byte 0
(neither start nor end of transfer). -/
def c10BadFrame : FdCanFrame :=
  { timestamp := 0, id := 8388608, dlc := 2, payload := [0, 0] }

/-- C10 counterexample: a non-empty anonymous message frame without both
start_of_transfer and end_of_transfer, with invalid reserved id bits, does
not return AnonNotSingleFrame as the claim states: the tail-byte
utilization check fires first and returns NonLastUnderUtilization. -/
theorem c10_counterexample_underutilization_first :
    canIdIsSvc c10BadFrame.id = false ∧
    canMsgIsAnon c10BadFrame.id = true ∧
    canMsgValid c10BadFrame.id = false ∧
    c10BadFrame.payload.length ≠ 0 ∧
    ¬ (tailStart c10BadFrame.payload.getLast! ∧ tailEnd c10BadFrame.payload.getLast!) ∧
    rxProcessFrame (some 1) c10BadFrame = .error .NonLastUnderUtilization ∧
    rxProcessFrame (some 1) c10BadFrame ≠ .error .AnonNotSingleFrame := by
  decide

/-- Source field of a freshly built non-anonymous message id: the given node
id, masked to 7 bits by the bitfield setter. -/
theorem canIdSource_msg_new (p s n : Nat) :
    canIdSource (CanMessageId.new p s (some n)) = n % 128 := by
  simp [canIdSource, CanMessageId.new]
  omega

/-- A message id built with a concrete source node id is not anonymous. -/
theorem canMsgIsAnon_msg_new (p s n : Nat) :
    canMsgIsAnon (CanMessageId.new p s (some n)) = false := by
  simp [canMsgIsAnon, CanMessageId.new]
  omega

/-- Source field of a freshly built service id: the given source node id,
masked to 7 bits. -/
theorem canIdSource_svc_new (p : Nat) (r : Bool) (s d n : Nat) :
    canIdSource (CanServiceId.new p r s d n) = n % 128 := by
  cases r <;> simp [canIdSource, CanServiceId.new] <;> omega

/-- Every frame emitted by one next() step carries the iterator's frame id, and
the successor state keeps the same frame id. -/
theorem FdCanIter.next_preserves_id {it : FdCanIter} {fr : FdCanFrame} {it' : FdCanIter}
    (h : it.next = some (some (fr, it'))) : fr.id = it.frameId ∧ it'.frameId = it.frameId := by
  simp only [FdCanIter.next] at h
  split at h
  · rw [Option.map_eq_some'] at h
    obtain ⟨a, _, ha⟩ := h
    simp only [Option.some.injEq, Prod.mk.injEq] at ha
    obtain ⟨h1, h2⟩ := ha
    subst h1; subst h2
    exact ⟨rfl, rfl⟩
  · split at h
    · simp at h
    · rw [Option.map_eq_some'] at h
      obtain ⟨a, _, ha⟩ := h
      simp only [Option.some.injEq, Prod.mk.injEq] at ha
      obtain ⟨h1, h2⟩ := ha
      subst h1; subst h2
      exact ⟨rfl, rfl⟩

/-- Every frame collected by the fuel-bounded iteration carries the iterator's
frame id. -/
theorem FdCanIter.emitAux_id : ∀ (fuel : Nat) (it : FdCanIter) (fs : List FdCanFrame),
    FdCanIter.emitAux fuel it = some fs → ∀ fr ∈ fs, fr.id = it.frameId := by
  intro fuel
  induction fuel with
  | zero => intro it fs h; simp [FdCanIter.emitAux] at h
  | succ n ih =>
    intro it fs h fr hfr
    rw [FdCanIter.emitAux] at h
    cases hn : it.next with
    | none => rw [hn] at h; exact absurd h (by simp)
    | some o =>
      cases o with
      | none =>
        rw [hn] at h
        simp only [Option.some.injEq] at h
        subst h
        simp at hfr
      | some p =>
        rw [hn] at h
        rw [Option.map_eq_some'] at h
        obtain ⟨fs', hfs', hcons⟩ := h
        subst hcons
        obtain ⟨f1, it1⟩ := p
        have hid := FdCanIter.next_preserves_id hn
        rcases List.mem_cons.mp hfr with hfr1 | hfr2
        · subst hfr1; exact hid.1
        · have := ih it1 fs' hfs' fr hfr2
          rw [this, hid.2]

/-- C6: FdCan's Transport::transmit hardcodes the node id Some(1).  Hence it
never returns AnonNotSingleFrame (the anonymous transmit path is
unreachable) nor ServiceNoSourceID, and whenever it returns an iterator,
every emitted frame's CAN id carries source node id 1, with the anonymous
bit clear for message transfers — regardless of the transfer contents. -/
theorem c6_transmit_hardcodes_node_one (t : Transfer) :
    FdCan.transmit t ≠ .error .AnonNotSingleFrame ∧
    FdCan.transmit t ≠ .error .ServiceNoSourceID ∧
    ∀ it, FdCan.transmit t = .ok it →
      canIdSource it.frameId = 1 ∧
      (t.transferKind = .message → canMsgIsAnon it.frameId = false) ∧
      ∀ fs, it.emit = some fs → ∀ fr ∈ fs, fr.id = it.frameId := by
  cases hk : t.transferKind with
  | message =>
    have he : FdCan.transmit t =
        .ok (FdCanIter.mkInit t (CanMessageId.new t.priority t.portId (some 1))) := by
      simp [FdCan.transmit, FdCanIter.new, hk]
    refine ⟨by simp [he], by simp [he], ?_⟩
    intro it hit
    rw [he] at hit
    injection hit with hit
    subst hit
    refine ⟨?_, ?_, ?_⟩
    · simpa using canIdSource_msg_new t.priority t.portId 1
    · intro _; exact canMsgIsAnon_msg_new t.priority t.portId 1
    · intro fs hfs fr hfr
      exact FdCanIter.emitAux_id _ _ fs hfs fr hfr
  | request =>
    cases hr : t.remoteNodeId with
    | none =>
      have he : FdCan.transmit t = .error .ServiceNoDestinationID := by
        simp [FdCan.transmit, FdCanIter.new, hk, hr]
      refine ⟨by simp [he], by simp [he], ?_⟩
      intro it hit
      rw [he] at hit
      exact absurd hit (by simp)
    | some d =>
      have he : FdCan.transmit t =
          .ok (FdCanIter.mkInit t (CanServiceId.new t.priority true t.portId d 1)) := by
        simp [FdCan.transmit, FdCanIter.new, hk, hr]
      refine ⟨by simp [he], by simp [he], ?_⟩
      intro it hit
      rw [he] at hit
      injection hit with hit
      subst hit
      refine ⟨?_, ?_, ?_⟩
      · simpa using canIdSource_svc_new t.priority true t.portId d 1
      · intro hm; exact absurd hm (by simp)
      · intro fs hfs fr hfr
        exact FdCanIter.emitAux_id _ _ fs hfs fr hfr
  | response =>
    cases hr : t.remoteNodeId with
    | none =>
      have he : FdCan.transmit t = .error .ServiceNoDestinationID := by
        simp [FdCan.transmit, FdCanIter.new, hk, hr]
      refine ⟨by simp [he], by simp [he], ?_⟩
      intro it hit
      rw [he] at hit
      exact absurd hit (by simp)
    | some d =>
      have he : FdCan.transmit t =
          .ok (FdCanIter.mkInit t (CanServiceId.new t.priority false t.portId d 1)) := by
        simp [FdCan.transmit, FdCanIter.new, hk, hr]
      refine ⟨by simp [he], by simp [he], ?_⟩
      intro it hit
      rw [he] at hit
      injection hit with hit
      subst hit
      refine ⟨?_, ?_, ?_⟩
      · simpa using canIdSource_svc_new t.priority false t.portId d 1
      · intro hm; exact absurd hm (by simp)
      · intro fs hfs fr hfr
        exact FdCanIter.emitAux_id _ _ fs hfs fr hfr

/-- Example transfer for the C6 witness: a one-byte message. -/
def c6Transfer : Transfer :=
  { timestamp := 0, priority := 0, transferKind := .message, portId := 2,
    remoteNodeId := none, transferId := 1, payload := [7] }

/-- Iterator state transmit produces for c6Transfer. -/
def c6Iter : FdCanIter := FdCanIter.mkInit c6Transfer (CanMessageId.new 0 2 (some 1))

/-- C6 witness: at the concrete transfer c6Transfer, transmit succeeds and its
frame id carries source node id 1 with the anonymous bit clear. -/
theorem c6_witness :
    FdCan.transmit c6Transfer ≠ .error .AnonNotSingleFrame ∧
    canIdSource c6Iter.frameId = 1 ∧
    canMsgIsAnon c6Iter.frameId = false := by
  have h := c6_transmit_hardcodes_node_one c6Transfer
  have h2 := h.2.2 c6Iter (by decide)
  exact ⟨h.1, h2.1, h2.2.1 (by decide)⟩

/-- C9: update_sessions keeps the subscription list length; each subscription
keeps its parameters and its session keys, and a session is replaced by a
fresh session with the same transfer id exactly when its timestamp is older
than the subscription's timeout, remaining untouched otherwise. -/
theorem c9_updateSessions_resets_exactly_expired (m : HeapSessionManager) (now : Nat)
    (i j : Nat) (su : SubscriptionState) (hsu : m.subscriptions[i]? = some su)
    (p : Nat × Session) (hp : su.sessions[j]? = some p) :
    (m.updateSessions now).subscriptions.length = m.subscriptions.length ∧
    ∃ su', (m.updateSessions now).subscriptions[i]? = some su' ∧
      su'.sub = su.sub ∧
      su'.sessions.length = su.sessions.length ∧
      su'.sessions[j]? = some (p.1,
        if timestampExpired su.sub.timeout now p.2.timestamp
        then Session.new p.2.transferId else p.2) := by
  constructor
  · simp [HeapSessionManager.updateSessions]
  · refine ⟨{ su with
        sessions := su.sessions.map (fun q => (q.1, Session.sweep su.sub.timeout now q.2)) },
      ?_, rfl, by simp, ?_⟩
    · simp [HeapSessionManager.updateSessions, List.getElem?_map, hsu]
    · simp [List.getElem?_map, hp, Session.sweep]

/-- Subscription for the C9 witness. -/
def c9Sub : SubscriptionParams :=
  { transferKind := .message, portId := 9, extent := 8, timeout := 500 }

/-- Expired session for the C9 witness (first frame at t = 0, swept at 600,
timeout 500). -/
def c9SessA : Session :=
  { timestamp := some 0, payload := [1, 2], transferId := 3, md := CanMetadata.new }

/-- Subscription state for the C9 witness: one expired and one live session. -/
def c9State : SubscriptionState :=
  { sub := c9Sub,
    sessions := [(5, c9SessA),
      (6, { timestamp := some 550, payload := [9], transferId := 7, md := CanMetadata.new })] }

/-- Manager for the C9 witness. -/
def c9Mgr : HeapSessionManager := { subscriptions := [c9State] }

/-- C9 witness: sweeping c9Mgr at time 600 keeps the structure and replaces
the expired session at key 5 by a fresh session with transfer id 3. -/
theorem c9_witness :
    (c9Mgr.updateSessions 600).subscriptions.length = c9Mgr.subscriptions.length ∧
    ∃ su', (c9Mgr.updateSessions 600).subscriptions[0]? = some su' ∧
      su'.sub = c9State.sub ∧
      su'.sessions.length = c9State.sessions.length ∧
      su'.sessions[0]? = some ((5, c9SessA).1,
        if timestampExpired c9State.sub.timeout 600 (5, c9SessA).2.timestamp
        then Session.new (5, c9SessA).2.transferId else (5, c9SessA).2) :=
  c9_updateSessions_resets_exactly_expired c9Mgr 600 0 0 c9State (by decide) (5, c9SessA) (by decide)

/-- C10 (amended): on a message frame that passes the tail-byte checks (non
empty; start implies toggle; non-end frames fill the MTU), the anonymous
single-frame check precedes the id validity check, so an anonymous
non-single-frame message yields AnonNotSingleFrame even when the id's
reserved bits are invalid; and InvalidCanId arises for a message frame
only when the frame is not an anonymous-single-frame violation and the id
fails valid(). -/
theorem c10_anon_check_precedes_validity (nodeId : Option Nat) (frame : FdCanFrame)
    (h0 : frame.payload.length ≠ 0)
    (h1 : ¬ (tailStart frame.payload.getLast! ∧ ¬ tailToggle frame.payload.getLast!))
    (h2 : ¬ (¬ tailEnd frame.payload.getLast! ∧ frame.payload.length < MTU_SIZE))
    (h3 : canIdIsSvc frame.id = false) :
    (canMsgIsAnon frame.id = true →
      ¬ (tailStart frame.payload.getLast! ∧ tailEnd frame.payload.getLast!) →
      rxProcessFrame nodeId frame = .error .AnonNotSingleFrame) ∧
    (rxProcessFrame nodeId frame = .error .InvalidCanId →
      canMsgValid frame.id = false ∧
      ¬ (canMsgIsAnon frame.id = true ∧
         ¬ (tailStart frame.payload.getLast! ∧ tailEnd frame.payload.getLast!))) := by
  have h3' : ¬ (canIdIsSvc frame.id = true) := by simp [h3]
  constructor
  · intro ha hse
    simp only [rxProcessFrame]
    rw [if_neg h0, if_neg h1, if_neg h2, if_neg h3', if_pos ⟨ha, hse⟩]
  · simp only [rxProcessFrame]
    rw [if_neg h0, if_neg h1, if_neg h2, if_neg h3']
    by_cases hc : canMsgIsAnon frame.id = true ∧
        ¬ (tailStart frame.payload.getLast! ∧ tailEnd frame.payload.getLast!)
    · rw [if_pos hc]
      intro he
      exact absurd he (by simp)
    · rw [if_neg hc]
      by_cases hv : canMsgValid frame.id = true
      · rw [if_neg (by simp [hv])]
        intro he
        exact absurd he (by simp)
      · rw [if_pos (by simpa using hv)]
        intro _
        exact ⟨by simpa using hv, hc⟩

/-- Frame for the C10 witness: anonymous id with invalid reserved bits, a full
64-byte frame whose tail byte clears both start and end of transfer. -/
def c10WitnessFrame : FdCanFrame :=
  { timestamp := 0, id := 8388608, dlc := 15, payload := List.replicate 64 0 }

/-- C10 witness: the concrete anonymous, invalid-id, full-MTU frame is
rejected as AnonNotSingleFrame, not InvalidCanId. -/
theorem c10_witness :
    rxProcessFrame (some 1) c10WitnessFrame = .error .AnonNotSingleFrame :=
  (c10_anon_check_precedes_validity (some 1) c10WitnessFrame (by decide) (by decide)
    (by decide) (by decide)).1 (by decide) (by decide)
